import Mathlib

/-!
# netcheck — verification of the diagnosis engine, monitor loop and interface parsers

Shallow embedding of the netcheck terminal network-diagnostic utility:

* `get_diagnosis` embeds `NetworkDiagnostics.get_diagnosis`
  (src/netcheck/diagnostics.py), the rule cascade mapping a measurement
  record to a status with issues and advice.
* `monitorTick` / `monitorRun` embed the per-tick behaviour of
  `NetworkMonitor.monitor` and `NetworkMonitor._handle_status_change`
  (src/netcheck/monitor.py).
* `parse_ipconfig` / `parse_ip_addr` embed
  `NetworkChecker._parse_ipconfig` and `NetworkChecker._parse_ip_addr`
  (src/netcheck/network_checker.py), including the line handling and the
  IPv4 regular-expression search they perform.

Python `float` values are modelled as rationals (only order comparisons and
decimal rendering are performed on them in the source), strings in the
parsers as `List Char`, and the `results` dictionary as the `Measurement`
structure with `Option` fields for entries that may hold `None`.
-/

/-! ## Python string/number helpers used by the embedded code -/

/-- The fractional digits of `r / d` (for `r < d`), most significant first,
produced by decimal long division and stopping when the remainder hits zero
or the fuel runs out.  For a value that is a terminating decimal of at most
`fuel` digits this is exactly its shortest decimal fraction expansion. -/
def fracDigitList : Nat → Nat → Nat → List Char
  | 0, _, _ => []
  | fuel + 1, r, d =>
    if r = 0 then []
    else Char.ofNat (48 + r * 10 / d) :: fracDigitList fuel (r * 10 % d) d

/-- Models CPython `str()` applied to a non-negative `float` holding a short
terminating decimal (the only floats netcheck produces: ping values parsed
from decimal text).  Renders the integer part, a dot, and the fraction
digits — at least one digit, so an integral value `25.0` renders `"25.0"`. -/
def pyFloatStr (q : ℚ) : String :=
  let n := q.num.natAbs
  let d := q.den
  let sign := if q.num < 0 then "-" else ""
  let frac := fracDigitList 17 (n % d) d
  sign ++ Nat.repr (n / d) ++ "." ++ (if frac.isEmpty then "0" else String.mk frac)

/-- Models the CPython format spec `:.1f` on a non-negative `float`: the value
is rounded to one decimal digit, ties to even.  Exact for values that are
multiples of `1/10` (then no rounding occurs at all), which covers all the
statements below; on other values CPython rounds the underlying binary
double, which can differ in the last digit at decimal `.05` boundaries. -/
def pyFormat1f (q : ℚ) : String :=
  let n := q.num.natAbs
  let d := q.den
  let sign := if q.num < 0 then "-" else ""
  let whole := 10 * n / d
  let rem := 10 * n % d
  let r :=
    if 2 * rem < d then whole
    else if d < 2 * rem then whole + 1
    else if whole % 2 = 0 then whole else whole + 1
  sign ++ Nat.repr (r / 10) ++ "." ++ Nat.repr (r % 10)

/-- Python truthiness test `not x` for an optional-string dictionary entry:
`None` and the empty string are falsy. -/
def strFalsy : Option String → Bool
  | none => true
  | some s => s == ""

/-! ## Data model: the results dictionary and the diagnosis record -/

/-- One entry of the parsed interface list: the `{'name', 'type', 'ip'}`
dictionaries built by `NetworkChecker._parse_ipconfig` / `_parse_ip_addr`. -/
structure InterfaceInfo where
  name : List Char
  type : String
  ip : Option (List Char)
deriving DecidableEq, Repr

/-- One ping sub-dictionary `{'success', 'avg', 'loss'}` as produced by
`NetworkChecker.ping_host` (`avg` and `loss` are `None` when parsing the
utility output failed). -/
structure PingResult where
  success : Bool
  avg : Option ℚ
  loss : Option ℚ
deriving DecidableEq, Repr

/-- The full `results` dictionary assembled by
`NetworkDiagnostics.run_full_diagnostic`, with every key present. -/
structure Measurement where
  local_ip : Option String
  external_ip : Option String
  gateway : Option String
  interfaces : List InterfaceInfo
  ping_google_dns : PingResult
  ping_domain : PingResult
  dns_working : Bool
  internet_connected : Bool
deriving DecidableEq, Repr

/-- The five result statuses of `get_diagnosis` plus the initial `'unknown'`
placeholder it writes into the dictionary before the cascade runs. -/
inductive Status where
  | unknown
  | no_connection
  | dns_issue
  | unstable_connection
  | slow_connection
  | healthy
deriving DecidableEq, Repr

/-- The `{'status', 'issues', 'advice'}` dictionary returned by
`NetworkDiagnostics.get_diagnosis`. -/
structure Diagnosis where
  status : Status
  issues : List String
  advice : List String
deriving DecidableEq, Repr

/-! ## The diagnosis engine -/

/-- The guard `results['ping_google_dns']['loss'] and ... > 20` of the
packet-loss rule: Python truthiness makes `None` and `0.0` fail the first
conjunct. -/
def lossTriggers : Option ℚ → Bool
  | none => false
  | some l => if l = 0 then false else decide (20 < l)

/-- The guard `results['ping_google_dns']['avg'] and ... > 100` of the
latency rule, with the same truthiness reading. -/
def avgTriggers : Option ℚ → Bool
  | none => false
  | some a => if a = 0 then false else decide (100 < a)

/-- Embedding of `NetworkDiagnostics.get_diagnosis` applied to a results
dictionary with every key present.  `w` is the `self.checker.is_windows`
flag consulted by the DNS advice branch.  Each branch of the Python
function builds its dictionary and returns, so the cascade is a nested
if-then-else. -/
def get_diagnosis (w : Bool) (results : Measurement) : Diagnosis :=
  if results.internet_connected = false then
    if strFalsy results.local_ip then
      { status := .no_connection
        issues := ["No internet connectivity detected",
                   "No network connection (no local IP)"]
        advice := ["Check your network cable or Wi-Fi connection",
                   "Restart your network adapter"] }
    else if strFalsy results.gateway then
      { status := .no_connection
        issues := ["No internet connectivity detected",
                   "No default gateway detected"]
        advice := ["Check router connection", "Restart your router"] }
    else
      { status := .no_connection
        issues := ["No internet connectivity detected",
                   "Connected to router but no internet access"]
        advice := ["Check if your router has internet access",
                   "Contact your ISP if router is online but no internet"] }
  else if results.dns_working = false then
    { status := .dns_issue
      issues := ["DNS not responding properly"]
      advice := ["Try changing DNS server to 8.8.8.8 or 1.1.1.1",
                 "Flush DNS cache",
                 if w then "Run: ipconfig /flushdns"
                 else "Restart network service or reboot"] }
  else if lossTriggers results.ping_google_dns.loss then
    { status := .unstable_connection
      issues := ["High packet loss (" ++
                 pyFloatStr (results.ping_google_dns.loss.getD 0) ++ "%)"]
      advice := ["Network connection is unstable",
                 "Check Wi-Fi signal strength if using wireless",
                 "Check network cables if using Ethernet",
                 "Restart router if problem persists"] }
  else if avgTriggers results.ping_google_dns.avg then
    { status := .slow_connection
      issues := ["High latency (" ++
                 pyFormat1f (results.ping_google_dns.avg.getD 0) ++ "ms)"]
      advice := ["Network latency is high",
                 "Close bandwidth-intensive applications",
                 "Check if others are using network heavily"] }
  else
    { status := .healthy
      issues := []
      advice := ["Internet is working normally"] }

/-- Embedding of the `results is None` guard at the top of `get_diagnosis`:
`stored` is `self.results` (`none` models the empty dictionary the
constructor installs, `some m` the dictionary left by
`run_full_diagnostic`), `arg` the optional `results` argument.  Reading
`results['internet_connected']` from the empty dictionary raises `KeyError`,
modelled as the error value. -/
def get_diagnosis_checked (w : Bool) (stored arg : Option Measurement) :
    Except String Diagnosis :=
  match arg with
  | some r => .ok (get_diagnosis w r)
  | none =>
    match stored with
    | some r => .ok (get_diagnosis w r)
    | none => .error "KeyError: internet_connected"

/-! ## The monitor loop -/

/-- The distinct print-groups one monitor tick can emit: the three alert
branches of `_handle_status_change`, the two initial-check lines, and the
heartbeat line of the unchanged-status branch. -/
inductive MonitorEvent where
  | initialUp
  | initialDown
  | lostAlert
  | restored
  | heartbeatUp
  | heartbeatDown
deriving DecidableEq, Repr

/-- What one iteration of the `while` loop in `NetworkMonitor.monitor`
produced: the (at most one) print-group, whether a full
`run_full_diagnostic` + `get_diagnosis` cycle ran, and whether the optional
callback was invoked. -/
structure TickOutput where
  event : Option MonitorEvent
  diagRan : Bool
  callbackFired : Bool
deriving DecidableEq, Repr

/-- Embedding of `NetworkMonitor._handle_status_change`: called with the
fresh `connected` value while `self.previous_status` still holds the value
of the previous tick (`none` models `None`).  Returns the emitted event and
whether a full diagnostic cycle ran; when no branch matches the method
prints nothing. -/
def handle_status_change (connected : Bool) (prev : Option Bool) :
    Option MonitorEvent × Bool :=
  if connected && (prev == some false) then
    (some .restored, false)
  else if !connected && (prev == some true) then
    (some .lostAlert, true)
  else if prev == none then
    if connected then (some .initialUp, false) else (some .initialDown, true)
  else
    (none, false)

/-- One iteration of the `while` loop of `NetworkMonitor.monitor`, given the
cheap `is_connected()` result of this tick: on a changed status it calls
`_handle_status_change` and then the callback (when one was supplied), on an
unchanged status it prints a heartbeat line; afterwards `previous_status`
is set to `connected`.  Returns the tick output and the new
`previous_status`. -/
def monitorTick (hasCallback : Bool) (prev : Option Bool) (connected : Bool) :
    TickOutput × Option Bool :=
  if (some connected == prev) = false then
    let h := handle_status_change connected prev
    ({ event := h.1, diagRan := h.2, callbackFired := hasCallback }, some connected)
  else
    ({ event := some (if connected then .heartbeatUp else .heartbeatDown)
       diagRan := false
       callbackFired := false }, some connected)

/-- Runs `monitorTick` over a list of cheap-connectivity observations,
collecting each tick's output and threading `previous_status`. -/
def monitorRun (hasCallback : Bool) (prev : Option Bool) :
    List Bool → List TickOutput × Option Bool
  | [] => ([], prev)
  | c :: cs =>
    let t := monitorTick hasCallback prev c
    let r := monitorRun hasCallback t.2 cs
    (t.1 :: r.1, r.2)

/-! ## String scanning helpers for the interface parsers -/

/-- The characters Python `str.strip()` removes. -/
def pyWhitespace : List Char := [' ', '\t', '\n', '\r', '\x0b', '\x0c']

/-- Python `str.strip()`. -/
def pyStrip (l : List Char) : List Char :=
  ((l.dropWhile (pyWhitespace.contains ·)).reverse.dropWhile
    (pyWhitespace.contains ·)).reverse

/-- Python `str.split(sep)` for a one-character separator. -/
def splitOnChar (c : Char) : List Char → List (List Char)
  | [] => [[]]
  | x :: xs =>
    let r := splitOnChar c xs
    if x = c then [] :: r
    else
      match r with
      | [] => [[x]]
      | h :: t => (x :: h) :: t

/-- Whether `pre` is a prefix of `l` (Python `str.startswith`). -/
def isPrefixList : List Char → List Char → Bool
  | [], _ => true
  | _ :: _, [] => false
  | a :: as, b :: bs => a == b && isPrefixList as bs

/-- Python substring containment `needle in hay`. -/
def containsSub (needle : List Char) : List Char → Bool
  | [] => isPrefixList needle []
  | l@(_ :: xs) => isPrefixList needle l || containsSub needle xs

/-- Greedy digit run at the head of the list and the remainder.  Because a
digit can never equal a literal dot, the maximal run is the only run the
regular expression `\d+\.` can commit to, so no further backtracking model
is needed. -/
def takeDigits : List Char → List Char × List Char
  | [] => ([], [])
  | c :: cs =>
    if c.isDigit then
      let r := takeDigits cs
      (c :: r.1, r.2)
    else ([], c :: cs)

/-- An anchored match of the dotted-quad pattern at the head of the list:
the text the capture group of the netcheck IPv4 regular expression
would hold. -/
def matchQuadAt (l : List Char) : Option (List Char) :=
  let p1 := takeDigits l
  if p1.1.isEmpty then none
  else
    match p1.2 with
    | '.' :: r1 =>
      let p2 := takeDigits r1
      if p2.1.isEmpty then none
      else
        match p2.2 with
        | '.' :: r2 =>
          let p3 := takeDigits r2
          if p3.1.isEmpty then none
          else
            match p3.2 with
            | '.' :: r3 =>
              let p4 := takeDigits r3
              if p4.1.isEmpty then none
              else some (p1.1 ++ '.' :: p2.1 ++ '.' :: p3.1 ++ '.' :: p4.1)
            | _ => none
        | _ => none
    | _ => none

/-- Leftmost search for the dotted-quad pattern, as performed by
`re.search` with the netcheck IPv4 pattern. -/
def searchQuad : List Char → Option (List Char)
  | [] => none
  | l@(_ :: xs) =>
    match matchQuadAt l with
    | some q => some q
    | none => searchQuad xs

/-- Leftmost search for `inet ` followed immediately by a dotted quad, as
performed by the Unix parser's `re.search` call; returns the capture
group. -/
def searchInetQuad : List Char → Option (List Char)
  | [] => none
  | l@(_ :: xs) =>
    match (if isPrefixList "inet ".toList l then matchQuadAt (l.drop 5) else none) with
    | some q => some q
    | none => searchInetQuad xs

/-! ## The interface parsers -/

/-- Python dictionary-truthiness filter `[i for i in interfaces if i.get('ip')]`
at the end of both parsers: kept iff the `ip` entry is a non-empty string. -/
def ipTruthy (i : InterfaceInfo) : Bool :=
  match i.ip with
  | none => false
  | some s => !s.isEmpty

/-- The `current_interface` flush appended when a new adapter line is seen
and at the end of the loop. -/
def flushCur : Option InterfaceInfo → List InterfaceInfo
  | none => []
  | some c => [c]

/-- The adapter-type classification performed inline on a Windows adapter
line (case-sensitive substring tests on the stripped line). -/
def winAdapterType (line : List Char) : String :=
  if containsSub "Ethernet".toList line then "Ethernet"
  else if containsSub "Wi-Fi".toList line || containsSub "Wireless".toList line then "Wi-Fi"
  else if containsSub "VPN".toList line then "VPN"
  else "Unknown"

/-- Embedding of `NetworkChecker._determine_interface_type`: substring tests
on the lowercased interface name. -/
def determine_interface_type (name : List Char) : String :=
  let lower := name.map Char.toLower
  if containsSub "eth".toList lower || containsSub "enp".toList lower then "Ethernet"
  else if containsSub "wl".toList lower || containsSub "wlan".toList lower then "Wi-Fi"
  else if containsSub "tun".toList lower || containsSub "vpn".toList lower then "VPN"
  else "Unknown"

/-- The per-line loop of `_parse_ipconfig` over the split raw lines, with the
`current_interface` register and the accumulated interface list.  An adapter
heading line (lowercased line containing `adapter` and containing a colon)
flushes the register and starts a new entry named by the text before the
first colon; any line containing `IPv4 Address` whose quad search succeeds
overwrites the register's `ip` (both tests run on the same line, as in the
source, which uses two independent `if` statements). -/
def ipconfigLoop : List (List Char) → Option InterfaceInfo → List InterfaceInfo →
    List InterfaceInfo
  | [], cur, acc => acc ++ flushCur cur
  | l :: ls, cur, acc =>
    let line := pyStrip l
    let isAdapter :=
      containsSub "adapter".toList (line.map Char.toLower) && line.contains ':'
    let cur1 :=
      if isAdapter then
        some { name := pyStrip ((splitOnChar ':' line).headD [])
               type := winAdapterType line
               ip := none }
      else cur
    let acc1 := if isAdapter then acc ++ flushCur cur else acc
    let cur2 :=
      match cur1 with
      | none => none
      | some c =>
        if containsSub "IPv4 Address".toList line then
          match searchQuad line with
          | some q => some { c with ip := some q }
          | none => some c
        else some c
    ipconfigLoop ls cur2 acc1

/-- Embedding of `NetworkChecker._parse_ipconfig`: split the utility output
into lines, run the loop, and keep only entries whose `ip` entry is
truthy. -/
def parse_ipconfig (output : List Char) : List InterfaceInfo :=
  (ipconfigLoop (splitOnChar '\n' output) none []).filter ipTruthy

/-- The interface-heading test of `_parse_ip_addr`: a non-empty stripped
line whose first character is a digit and which contains a colon. -/
def ipAddrIsHeading (line : List Char) : Bool :=
  !line.isEmpty && (line.headD ' ').isDigit && line.contains ':'

/-- The `current_interface` update of `_parse_ip_addr` on a heading line:
a new entry named by the stripped second colon-separated field, with a
fresh `None` ip.  A line containing a colon always splits into at least two
fields, so the source's `len(parts) >= 2` guard cannot fail on this path
and the fallthrough keeps the register. -/
def ipAddrStartCur (line : List Char) (cur : Option InterfaceInfo) :
    Option InterfaceInfo :=
  if ipAddrIsHeading line then
    match splitOnChar ':' line with
    | _ :: p1 :: _ =>
      some { name := pyStrip p1
             type := determine_interface_type (pyStrip p1)
             ip := none }
    | _ => cur
  else cur

/-- The ip update of `_parse_ip_addr`: on a line containing `inet `
whose quad search succeeds, the register's `ip` is set only when the
captured quad does not start with `127.` (the explicit loopback skip of the
source). -/
def ipAddrSetIp (line : List Char) : Option InterfaceInfo → Option InterfaceInfo
  | none => none
  | some c =>
    if containsSub "inet ".toList line then
      match searchInetQuad line with
      | some q =>
        if isPrefixList "127.".toList q then some c
        else some { c with ip := some q }
      | none => some c
    else some c

/-- The per-line loop of `_parse_ip_addr` over the split raw lines, with
the `current_interface` register and the accumulated interface list. -/
def ipAddrLoop : List (List Char) → Option InterfaceInfo → List InterfaceInfo →
    List InterfaceInfo
  | [], cur, acc => acc ++ flushCur cur
  | l :: ls, cur, acc =>
    let line := pyStrip l
    ipAddrLoop ls (ipAddrSetIp line (ipAddrStartCur line cur))
      (if ipAddrIsHeading line then acc ++ flushCur cur else acc)

/-- Embedding of `NetworkChecker._parse_ip_addr`: split the utility output
into lines, run the loop, and keep only entries whose `ip` entry is
truthy. -/
def parse_ip_addr (output : List Char) : List InterfaceInfo :=
  (ipAddrLoop (splitOnChar '\n' output) none []).filter ipTruthy

/-! ## Concrete fixtures and auxiliary predicates -/

/-- No IPv4 in the `ip` entry that starts with `127.` — the loopback-range
exclusion the specification ascribes to both parsers. -/
def ipNotLoopback (i : InterfaceInfo) : Prop :=
  ∀ s, i.ip = some s → isPrefixList "127.".toList s = false

/-- Whether a tick output is one of the two heartbeat lines. -/
def isHeartbeat (t : TickOutput) : Bool :=
  t.event == some .heartbeatUp || t.event == some .heartbeatDown

/-- A successful ping sub-dictionary with the given parsed values. -/
def mkPing (avg loss : Option ℚ) : PingResult :=
  { success := true, avg := avg, loss := loss }

/-- A connected, DNS-ok measurement with the given primary ping values. -/
def mkUp (p : PingResult) : Measurement :=
  { local_ip := some "192.168.1.5", external_ip := some "203.0.113.9"
    gateway := some "192.168.1.1", interfaces := []
    ping_google_dns := p, ping_domain := p
    dns_working := true, internet_connected := true }

/-- A fully-down measurement: no connectivity and no local IP. -/
def mDownNoIp : Measurement :=
  { local_ip := none, external_ip := none, gateway := none, interfaces := []
    ping_google_dns := { success := false, avg := none, loss := none }
    ping_domain := { success := false, avg := none, loss := none }
    dns_working := false, internet_connected := false }

/-- Connected, DNS ok, loss 50 and latency 200 simultaneously. -/
def mLossAndLat : Measurement := mkUp (mkPing (some 200) (some 50))

/-- Connected, DNS ok, loss exactly 20, latency unparsed. -/
def mLoss20 : Measurement := mkUp (mkPing none (some 20))

/-- Connected, DNS ok, loss 21, latency unparsed. -/
def mLoss21 : Measurement := mkUp (mkPing none (some 21))

/-- Connected, DNS ok, loss unparsed, latency exactly 100. -/
def mAvg100 : Measurement := mkUp (mkPing (some 100) none)

/-- Connected, DNS ok, loss unparsed, latency 101. -/
def mAvg101 : Measurement := mkUp (mkPing (some 101) none)

/-- Connected, DNS ok, loss and latency both unparsed. -/
def mQuiet : Measurement := mkUp (mkPing none none)

/-- Connected but DNS resolution failing. -/
def mDnsBad : Measurement :=
  { mkUp (mkPing (some 20) (some 0)) with dns_working := false }

/-- Connected, DNS ok, whole-number loss 25 (ping loss is parsed from the
digits-only group of the loss regular expression and converted by
`float(...)`, so it is always a whole-number float). -/
def mLoss25 : Measurement := mkUp (mkPing none (some ((25 : ℕ) : ℚ)))

/-- Connected, DNS ok, whole-number latency 150. -/
def mAvg150 : Measurement := mkUp (mkPing (some ((150 : ℕ) : ℚ)) none)

/-- An `ipconfig /all` style output containing a loopback adapter with an
IPv4 address line. -/
def exIpconfigOut : List Char :=
  ("Windows IP Configuration\n\nEthernet adapter Loopback:\n" ++
   "   IPv4 Address. . . . . . . . . . . : 127.0.0.1\n").toList

/-- An `ip addr show` style output with the loopback device followed by an
Ethernet device. -/
def exIpAddrOut : List Char :=
  ("1: lo: <LOOPBACK,UP> mtu 65536\n    inet 127.0.0.1/8 scope host lo\n" ++
   "2: eth0: <BROADCAST,UP> mtu 1500\n" ++
   "    inet 10.0.0.7/24 brd 10.0.0.255 scope global eth0\n").toList

/-- The entry `parse_ipconfig` retains from `exIpconfigOut`. -/
def entryWin : InterfaceInfo :=
  { name := "Ethernet adapter Loopback".toList, type := "Ethernet"
    ip := some "127.0.0.1".toList }

/-- The entry `parse_ip_addr` retains from `exIpAddrOut`. -/
def entryUnix : InterfaceInfo :=
  { name := "eth0".toList, type := "Ethernet", ip := some "10.0.0.7".toList }

/-! ## Helper lemmas -/

lemma strFalsy_of_ne_empty (o : Option String) (h : o ≠ some "") :
    strFalsy o = decide (o = none) := by
  cases o with
  | none => rfl
  | some s =>
    have hs : s ≠ "" := fun hs => h (by rw [hs])
    simp [strFalsy, hs]

lemma lossTriggers_of_gt {l : ℚ} (h : 20 < l) : lossTriggers (some l) = true := by
  have h0 : l ≠ 0 := ne_of_gt (lt_trans (by norm_num) h)
  simp [lossTriggers, h0, h]

lemma lossTriggers_of_le {l : ℚ} (h : l ≤ 20) : lossTriggers (some l) = false := by
  by_cases h0 : l = 0
  · simp [lossTriggers, h0]
  · simp [lossTriggers, h0, not_lt.2 h]

lemma avgTriggers_of_gt {a : ℚ} (h : 100 < a) : avgTriggers (some a) = true := by
  have h0 : a ≠ 0 := ne_of_gt (lt_trans (by norm_num) h)
  simp [avgTriggers, h0, h]

lemma avgTriggers_of_le {a : ℚ} (h : a ≤ 100) : avgTriggers (some a) = false := by
  by_cases h0 : a = 0
  · simp [avgTriggers, h0]
  · simp [avgTriggers, h0, not_lt.2 h]

lemma str_app_app (x b c bc : String) (h : b ++ c = bc) :
    x ++ b ++ c = x ++ bc := by
  cases x with
  | mk l =>
    cases b with
    | mk lb =>
      cases c with
      | mk lc =>
        cases bc with
        | mk lbc =>
          have hd : lb ++ lc = lbc := congrArg String.data h
          exact congrArg String.mk (by rw [List.append_assoc, hd])

lemma pyFloatStr_natCast (k : ℕ) : pyFloatStr (k : ℚ) = Nat.repr k ++ ".0" := by
  have hnum : ((k : ℚ)).num = (k : ℤ) := Rat.num_natCast k
  have hden : ((k : ℚ)).den = 1 := Rat.den_natCast k
  have hneg : ¬((k : ℤ) < 0) := not_lt.2 (Int.natCast_nonneg k)
  simp only [pyFloatStr, hnum, hden, Int.natAbs_ofNat, Nat.mod_one, Nat.div_one]
  have hfd : fracDigitList 17 0 1 = [] := rfl
  rw [hfd]
  simp only [List.isEmpty_nil, if_true, if_neg hneg]
  rw [String.empty_append]
  exact str_app_app _ _ _ _ rfl

lemma pyFormat1f_natCast (k : ℕ) : pyFormat1f (k : ℚ) = Nat.repr k ++ ".0" := by
  have hnum : ((k : ℚ)).num = (k : ℤ) := Rat.num_natCast k
  have hden : ((k : ℚ)).den = 1 := Rat.den_natCast k
  have hneg : ¬((k : ℤ) < 0) := not_lt.2 (Int.natCast_nonneg k)
  simp only [pyFormat1f, hnum, hden, Int.natAbs_ofNat, Nat.mod_one, Nat.div_one,
    Nat.mul_mod_right]
  norm_num
  rw [if_neg hneg, String.empty_append]
  exact str_app_app _ _ _ _ rfl

lemma ipAddrStartCur_inv (line : List Char) (cur : Option InterfaceInfo)
    (h : ∀ c, cur = some c → ipNotLoopback c) :
    ∀ c, ipAddrStartCur line cur = some c → ipNotLoopback c := by
  intro c hc
  unfold ipAddrStartCur at hc
  split at hc
  · split at hc
    · cases hc
      intro s hs
      simp at hs
    · exact h c hc
  · exact h c hc

lemma ipAddrSetIp_inv (line : List Char) (cur : Option InterfaceInfo)
    (h : ∀ c, cur = some c → ipNotLoopback c) :
    ∀ c, ipAddrSetIp line cur = some c → ipNotLoopback c := by
  intro c hc
  cases cur with
  | none => simp [ipAddrSetIp] at hc
  | some c0 =>
    have h0 : ipNotLoopback c0 := h c0 rfl
    simp only [ipAddrSetIp] at hc
    split at hc
    · split at hc
      · rename_i q hq
        split at hc
        · cases hc; exact h0
        · rename_i hpre
          cases hc
          intro s hs
          simp only at hs
          cases hs
          exact Bool.not_eq_true _ ▸ (by simpa using hpre)
      · cases hc; exact h0
    · cases hc; exact h0

lemma ipAddrLoop_inv (ls : List (List Char)) (cur : Option InterfaceInfo)
    (acc : List InterfaceInfo)
    (hacc : ∀ i ∈ acc, ipNotLoopback i)
    (hcur : ∀ c, cur = some c → ipNotLoopback c) :
    ∀ i ∈ ipAddrLoop ls cur acc, ipNotLoopback i := by
  induction ls generalizing cur acc with
  | nil =>
    intro i hi
    simp only [ipAddrLoop] at hi
    rcases List.mem_append.mp hi with h | h
    · exact hacc i h
    · cases cur with
      | none => simp [flushCur] at h
      | some c =>
        simp only [flushCur, List.mem_singleton] at h
        exact h ▸ hcur c rfl
  | cons l ls ih =>
    intro i hi
    simp only [ipAddrLoop] at hi
    refine ih _ _ ?_ (ipAddrSetIp_inv _ _ (ipAddrStartCur_inv _ _ hcur)) i hi
    intro j hj
    by_cases hh : ipAddrIsHeading (pyStrip l)
    · rw [if_pos hh] at hj
      rcases List.mem_append.mp hj with h | h
      · exact hacc j h
      · cases cur with
        | none => simp [flushCur] at h
        | some c =>
          simp only [flushCur, List.mem_singleton] at h
          exact h ▸ hcur c rfl
    · rw [if_neg hh] at hj
      exact hacc j hj

/-! ## Claim theorems -/

/-- Claim C1: for every measurement with `internet_connected = false`,
`get_diagnosis` returns the no-connection status regardless of the DNS,
loss and latency fields; its issues list starts with the top-level
no-internet-connectivity issue followed by exactly one sub-classification
issue — no local IP, else no default gateway, else connected-to-router —
with the corresponding advice.  The two optional-string hypotheses record
that a present address is a non-empty string (the collector returns either
`None` or a parsed address, never the empty string), under which the
source's truthiness tests coincide with the absence tests of the claim. -/
theorem no_connection_classification (w : Bool) (m : Measurement)
    (hip : m.local_ip ≠ some "") (hgw : m.gateway ≠ some "")
    (hc : m.internet_connected = false) :
    (get_diagnosis w m).status = .no_connection ∧
    (get_diagnosis w m).issues =
      ["No internet connectivity detected",
       if m.local_ip = none then "No network connection (no local IP)"
       else if m.gateway = none then "No default gateway detected"
       else "Connected to router but no internet access"] ∧
    (get_diagnosis w m).advice =
      (if m.local_ip = none then
        ["Check your network cable or Wi-Fi connection",
         "Restart your network adapter"]
       else if m.gateway = none then
        ["Check router connection", "Restart your router"]
       else
        ["Check if your router has internet access",
         "Contact your ISP if router is online but no internet"]) := by
  unfold get_diagnosis
  rw [hc, strFalsy_of_ne_empty _ hip, strFalsy_of_ne_empty _ hgw]
  by_cases h1 : m.local_ip = none <;> by_cases h2 : m.gateway = none <;>
    simp [h1, h2]

/-- Witness for C1 at a concrete no-connectivity, no-local-IP measurement. -/
theorem no_connection_classification_witness :
    (get_diagnosis false mDownNoIp).status = .no_connection ∧
    (get_diagnosis false mDownNoIp).issues =
      ["No internet connectivity detected",
       "No network connection (no local IP)"] ∧
    (get_diagnosis false mDownNoIp).advice =
      ["Check your network cable or Wi-Fi connection",
       "Restart your network adapter"] := by
  exact no_connection_classification false mDownNoIp (by decide) (by decide) rfl

/-- Claim C2: the rule cascade stops at the first matching rule in the fixed
priority order connectivity, DNS, loss, latency, healthy: whenever both the
loss and the latency rule would fire, the loss rule wins; in particular a
connected, DNS-ok measurement with loss 50 and latency 200 is classified
unstable, not slow. -/
theorem cascade_priority_loss_over_latency (w : Bool) (m : Measurement)
    (hc : m.internet_connected = true) (hd : m.dns_working = true) :
    (∀ l a, m.ping_google_dns.loss = some l → 20 < l →
      m.ping_google_dns.avg = some a → 100 < a →
      (get_diagnosis w m).status = .unstable_connection) ∧
    (m.ping_google_dns.loss = some 50 → m.ping_google_dns.avg = some 200 →
      (get_diagnosis w m).status = .unstable_connection ∧
      (get_diagnosis w m).status ≠ .slow_connection) := by
  constructor
  · intro l a hl h20 ha h100
    simp [get_diagnosis, hc, hd, hl, lossTriggers_of_gt h20]
  · intro hl ha
    constructor <;>
      simp [get_diagnosis, hc, hd, hl,
        lossTriggers_of_gt (by norm_num : (20:ℚ) < 50)]

/-- Witness for C2 at the concrete loss-50 latency-200 measurement. -/
theorem cascade_priority_loss_over_latency_witness :
    (get_diagnosis false mLossAndLat).status = .unstable_connection ∧
    (get_diagnosis false mLossAndLat).status ≠ .slow_connection := by
  exact (cascade_priority_loss_over_latency false mLossAndLat rfl rfl).2 rfl rfl

/-- Claim C3: with connectivity and DNS ok, the thresholds are strict: loss
exactly 20 does not classify unstable while 21 does, latency exactly 100
does not classify slow while 101 does (when the loss rule does not fire);
an absent loss or latency never triggers its rule, and a measurement with
both absent is healthy with an empty issues list. -/
theorem strict_thresholds_and_absent_fields (w : Bool) (m : Measurement)
    (hc : m.internet_connected = true) (hd : m.dns_working = true) :
    (m.ping_google_dns.loss = some 20 →
      (get_diagnosis w m).status ≠ .unstable_connection) ∧
    (m.ping_google_dns.loss = some 21 →
      (get_diagnosis w m).status = .unstable_connection) ∧
    (m.ping_google_dns.avg = some 100 →
      (get_diagnosis w m).status ≠ .slow_connection) ∧
    ((m.ping_google_dns.loss = none ∨
        (∃ l, m.ping_google_dns.loss = some l ∧ l ≤ 20)) →
      m.ping_google_dns.avg = some 101 →
      (get_diagnosis w m).status = .slow_connection) ∧
    (m.ping_google_dns.loss = none →
      (get_diagnosis w m).status ≠ .unstable_connection) ∧
    (m.ping_google_dns.avg = none →
      (get_diagnosis w m).status ≠ .slow_connection) ∧
    (m.ping_google_dns.loss = none → m.ping_google_dns.avg = none →
      get_diagnosis w m =
        { status := .healthy, issues := [],
          advice := ["Internet is working normally"] }) := by
  refine ⟨?_, ?_, ?_, ?_, ?_, ?_, ?_⟩
  · intro hl
    have h20 : lossTriggers m.ping_google_dns.loss = false := by
      rw [hl]; exact lossTriggers_of_le le_rfl
    simp only [get_diagnosis, hc, hd, h20]
    split_ifs <;> simp
  · intro hl
    simp [get_diagnosis, hc, hd, hl,
      lossTriggers_of_gt (by norm_num : (20:ℚ) < 21)]
  · intro ha
    have h100 : avgTriggers m.ping_google_dns.avg = false := by
      rw [ha]; exact avgTriggers_of_le le_rfl
    simp only [get_diagnosis, hc, hd, h100]
    split_ifs <;> simp
  · intro hl ha
    have hlt : lossTriggers m.ping_google_dns.loss = false := by
      rcases hl with h | ⟨l, h, hle⟩
      · rw [h]; rfl
      · rw [h]; exact lossTriggers_of_le hle
    simp [get_diagnosis, hc, hd, hlt, ha,
      avgTriggers_of_gt (by norm_num : (100:ℚ) < 101)]
  · intro hl
    simp only [get_diagnosis, hc, hd, hl]
    split_ifs <;> simp_all [lossTriggers]
  · intro ha
    simp only [get_diagnosis, hc, hd, ha]
    split_ifs <;> simp_all [avgTriggers]
  · intro hl ha
    simp [get_diagnosis, hc, hd, hl, ha, lossTriggers, avgTriggers]

/-- Witness for C3 at the concrete boundary measurements. -/
theorem strict_thresholds_and_absent_fields_witness :
    (get_diagnosis false mLoss20).status ≠ .unstable_connection ∧
    (get_diagnosis false mLoss21).status = .unstable_connection ∧
    (get_diagnosis false mAvg100).status ≠ .slow_connection ∧
    (get_diagnosis false mAvg101).status = .slow_connection ∧
    get_diagnosis false mQuiet =
      { status := .healthy, issues := [],
        advice := ["Internet is working normally"] } := by
  refine ⟨?_, ?_, ?_, ?_, ?_⟩
  · exact (strict_thresholds_and_absent_fields false mLoss20 rfl rfl).1 rfl
  · exact (strict_thresholds_and_absent_fields false mLoss21 rfl rfl).2.1 rfl
  · exact (strict_thresholds_and_absent_fields false mAvg100 rfl rfl).2.2.1 rfl
  · exact (strict_thresholds_and_absent_fields false mAvg101 rfl rfl).2.2.2.1
      (Or.inl rfl) rfl
  · exact (strict_thresholds_and_absent_fields false mQuiet rfl rfl).2.2.2.2.2.2
      rfl rfl

/-- Claim C4: for every measurement with connectivity up and DNS failing,
`get_diagnosis` returns the DNS-issue status with the DNS-not-responding
issue and advice consisting of the alternate-DNS suggestion, the flush-DNS
suggestion, and exactly one platform-specific remediation string selected
by the injected Windows flag. -/
theorem dns_issue_classification (w : Bool) (m : Measurement)
    (hc : m.internet_connected = true) (hd : m.dns_working = false) :
    get_diagnosis w m =
      { status := .dns_issue
        issues := ["DNS not responding properly"]
        advice := ["Try changing DNS server to 8.8.8.8 or 1.1.1.1",
                   "Flush DNS cache",
                   if w then "Run: ipconfig /flushdns"
                   else "Restart network service or reboot"] } := by
  simp [get_diagnosis, hc, hd]

/-- Witness for C4 at a concrete DNS-failing measurement on a Windows-like
platform. -/
theorem dns_issue_classification_witness :
    get_diagnosis true mDnsBad =
      { status := .dns_issue
        issues := ["DNS not responding properly"]
        advice := ["Try changing DNS server to 8.8.8.8 or 1.1.1.1",
                   "Flush DNS cache", "Run: ipconfig /flushdns"] } := by
  exact dns_issue_classification true mDnsBad rfl rfl

/-- Claim C5: `get_diagnosis` is total over well-formed measurements and
always produces exactly one of the five statuses, never the initial
`'unknown'` placeholder. -/
theorem diagnosis_total_five_statuses (w : Bool) (m : Measurement) :
    (get_diagnosis w m).status ≠ .unknown ∧
    ((get_diagnosis w m).status = .healthy ∨
     (get_diagnosis w m).status = .no_connection ∨
     (get_diagnosis w m).status = .dns_issue ∨
     (get_diagnosis w m).status = .unstable_connection ∨
     (get_diagnosis w m).status = .slow_connection) := by
  unfold get_diagnosis
  split_ifs <;> simp

/-- Counterexample to claim C6 as stated: on the cheap-connectivity
sequence `[true, true, false, false, true]` the ticks do emit initial-up,
heartbeat-up, LOST alert, heartbeat-down, RESTORED in order, but exactly
one full diagnostic run is triggered (at the LOST transition), not two as
the claim asserts. -/
theorem monitor_two_runs_counterexample :
    (monitorRun true none [true, true, false, false, true]).1.map
        (fun t => t.event) =
      [some .initialUp, some .heartbeatUp, some .lostAlert,
       some .heartbeatDown, some .restored] ∧
    ¬ ((monitorRun true none [true, true, false, false, true]).1.filter
        (fun t => t.diagRan)).length = 2 := by decide

/-- Claim C6 as amended: in a monitor run whose cheap-connectivity results
across five ticks are `[true, true, false, false, true]`, the ticks emit,
in order, the initial-up line, a heartbeat-up line, the LOST alert with a
full collect-and-diagnose run, a heartbeat-down line, and the RESTORED
alert without re-running the full diagnosis; exactly one full diagnostic
run is triggered across the five ticks (the initial-if-down run is skipped
since the first tick was up), and alerts fire only on transitions, the
level-holding ticks two and four producing only heartbeats. -/
theorem monitor_scenario_edge_triggered :
    (monitorRun true none [true, true, false, false, true]).1.map
        (fun t => t.event) =
      [some .initialUp, some .heartbeatUp, some .lostAlert,
       some .heartbeatDown, some .restored] ∧
    (monitorRun true none [true, true, false, false, true]).1.map
        (fun t => t.diagRan) =
      [false, false, true, false, false] ∧
    ((monitorRun true none [true, true, false, false, true]).1.filter
        (fun t => t.diagRan)).length = 1 := by decide

/-- Counterexample to claim C7 as stated: the packet-loss issue string is
built by plain interpolation of the loss `float`, so the whole-number loss
25 renders with Python's default float formatting as `"25.0%"`, not with
zero decimal places as `"25%"`. -/
theorem loss_format_counterexample :
    (get_diagnosis false mLoss25).status = .unstable_connection ∧
    (get_diagnosis false mLoss25).issues = ["High packet loss (25.0%)"] ∧
    ("High packet loss (25.0%)" : String) ≠ "High packet loss (25%)" := by
  decide

/-- Claim C7 as amended: the unstable-connection issue embeds the loss value
with Python's default float formatting (a whole-number loss `k` renders as
`"k.0%"`), and the slow-connection issue embeds the latency with exactly
one decimal place (a whole-number latency `k` renders as `"k.0ms"`), for
measurements triggering the respective rule.  Whole-number values are what
the ping parser produces for loss, and exhaust the claim's examples; the
latency hypothesis fixes the rule that fires. -/
theorem issue_value_formatting (w : Bool) (m : Measurement)
    (hc : m.internet_connected = true) (hd : m.dns_working = true) :
    (∀ k : ℕ, m.ping_google_dns.loss = some (k : ℚ) → 20 < (k : ℚ) →
      (get_diagnosis w m).issues =
        ["High packet loss (" ++ (Nat.repr k ++ ".0") ++ "%)"]) ∧
    (∀ k : ℕ, lossTriggers m.ping_google_dns.loss = false →
      m.ping_google_dns.avg = some (k : ℚ) → 100 < (k : ℚ) →
      (get_diagnosis w m).issues =
        ["High latency (" ++ (Nat.repr k ++ ".0") ++ "ms)"]) := by
  constructor
  · intro k hl h20
    simp [get_diagnosis, hc, hd, hl, lossTriggers_of_gt h20, pyFloatStr_natCast]
  · intro k hlq ha h100
    simp [get_diagnosis, hc, hd, hlq, ha, avgTriggers_of_gt h100,
      pyFormat1f_natCast]

/-- Witness for the amended C7 at loss 25 and latency 150. -/
theorem issue_value_formatting_witness :
    (get_diagnosis false mLoss25).issues = ["High packet loss (25.0%)"] ∧
    (get_diagnosis false mAvg150).issues = ["High latency (150.0ms)"] := by
  exact ⟨(issue_value_formatting false mLoss25 rfl rfl).1 25 rfl (by norm_num),
         (issue_value_formatting false mAvg150 rfl rfl).2 150 rfl rfl
           (by norm_num)⟩

/-- Counterexample to claim C8 as stated: the Windows ipconfig parser has no
loopback exclusion, so an output with a loopback adapter whose IPv4 line
reads `127.0.0.1` yields a retained entry whose address lies in
`127.0.0.0/8`. -/
theorem ipconfig_loopback_counterexample :
    (parse_ipconfig exIpconfigOut).map (fun i => i.ip) =
      [some "127.0.0.1".toList] ∧
    isPrefixList "127.".toList "127.0.0.1".toList = true := by decide

/-- Claim C8 as amended: every entry retained by either parser has a
non-absent, non-empty IPv4 address; the Unix `ip addr` parser additionally
never retains an address in the loopback range `127.0.0.0/8` (tested, as in
the source, as the prefix `127.`), while the Windows ipconfig parser
applies no loopback filter. -/
theorem parsers_retained_entries (out : List Char) :
    (∀ i ∈ parse_ipconfig out, ∃ s, i.ip = some s ∧ s ≠ []) ∧
    (∀ i ∈ parse_ip_addr out, ∃ s, i.ip = some s ∧ s ≠ [] ∧
        isPrefixList "127.".toList s = false) := by
  constructor
  · intro i hi
    obtain ⟨-, ht⟩ := List.mem_filter.mp hi
    unfold ipTruthy at ht
    cases hip : i.ip with
    | none => rw [hip] at ht; cases ht
    | some s =>
      rw [hip] at ht
      refine ⟨s, rfl, ?_⟩
      simpa using ht
  · intro i hi
    obtain ⟨hmem, ht⟩ := List.mem_filter.mp hi
    have hinv : ipNotLoopback i :=
      ipAddrLoop_inv _ none [] (by simp) (fun c hc => by cases hc) i hmem
    unfold ipTruthy at ht
    cases hip : i.ip with
    | none => rw [hip] at ht; cases ht
    | some s =>
      rw [hip] at ht
      exact ⟨s, rfl, by simpa using ht, hinv s hip⟩

/-- Witness for the amended C8 at the two concrete utility outputs. -/
theorem parsers_retained_entries_witness :
    (∃ s, entryWin.ip = some s ∧ s ≠ []) ∧
    (∃ s, entryUnix.ip = some s ∧ s ≠ [] ∧
        isPrefixList "127.".toList s = false) := by
  exact ⟨(parsers_retained_entries exIpconfigOut).1 entryWin (by decide),
         (parsers_retained_entries exIpAddrOut).2 entryUnix (by decide)⟩

/-- Claim C9: calling `get_diagnosis` with no results argument before
`run_full_diagnostic` has ever run reads `'internet_connected'` from the
empty stored dictionary and raises `KeyError` — modelled as the error value
of `get_diagnosis_checked` — and this is the only such case: with a stored
dictionary or an explicit argument the classified diagnosis is returned. -/
theorem keyerror_on_empty_stored_results :
    (∀ w, get_diagnosis_checked w none none =
      .error "KeyError: internet_connected") ∧
    (∀ w m, get_diagnosis_checked w (some m) none = .ok (get_diagnosis w m)) ∧
    (∀ w stored m, get_diagnosis_checked w stored (some m) =
      .ok (get_diagnosis w m)) :=
  ⟨fun _ => rfl, fun _ _ => rfl, fun _ _ _ => rfl⟩

/-- Claim C10: after every tick `previous_status` equals the connectivity
value observed on that tick, the callback (when supplied) is invoked on
exactly the ticks whose observed value differs from the stored
`previous_status` — including the first tick, where the stored `None`
differs from every boolean — and a tick is a heartbeat tick exactly when
the value did not change, so the callback never fires on heartbeat
ticks. -/
theorem monitor_tick_invariant :
    ∀ (prev : Option Bool) (c : Bool),
      (monitorTick true prev c).2 = some c ∧
      (monitorTick true prev c).1.callbackFired = !(prev == some c) ∧
      isHeartbeat (monitorTick true prev c).1 = (prev == some c) ∧
      (monitorTick true prev c).1.callbackFired =
        !isHeartbeat (monitorTick true prev c).1 := by decide
